import Mathlib

/-!
Verification of the Globus Bank support chatbot (Flask application).

This file gives a shallow embedding of the repository's core logic:

* `config.py`   — constants (`INTENTS`, chunk size, history cap, fixed messages);
* `modules/intent.py`   — `classify_intent` with its deterministic parsing policy;
* `modules/response.py` — `generate_response` access-control gate and model call;
* `modules/knowledge_base.py` — `_split_into_chunks` and the top-K ranking of
  `get_relevant_info`;
* `modules/auth.py`     — `get_customer` account lookup;
* `app.py`      — `_trim_history` and the `/api/authenticate`, `/api/chat`,
  `/api/block-card` route logic.

Text is embedded as `List Char` with Python string semantics (`strip`, `split`,
`lower`, substring tests) reproduced character by character.  The language
model, the sentence embedder and the response prompt builder (which performs
float and date formatting) are external collaborators and are injected as
function parameters, exactly as the spec treats them (opaque completion and
encoder services).  Machine-learned similarity scores are modelled as exact
rationals attached to chunk indices; the ranking pass of `get_relevant_info`
(`np.argsort(similarity)[::-1][:top_k]`) is embedded with a stable ascending
argsort, which is numpy's documented behaviour for the small arrays this
repository builds (its introsort falls back to a stable insertion sort).
-/

-- ════════════════════════════════════════════════════════════════════
-- Python string primitives
-- ════════════════════════════════════════════════════════════════════

/-- Python `str.isspace` characters relevant to `str.strip()`:
space, tab, newline, carriage return, vertical tab, form feed. -/
def isPySpace (c : Char) : Bool :=
  c = ' ' || c = '\t' || c = '\n' || c = '\r' || c = Char.ofNat 11 || c = Char.ofNat 12

/-- Python `str.strip()` (no argument): drop whitespace from both ends. -/
def pyStrip (l : List Char) : List Char :=
  ((l.dropWhile isPySpace).reverse.dropWhile isPySpace).reverse

/-- Worker for `str.split()` with no separator: split on whitespace runs,
dropping empty fields.  `acc` is the current word, reversed. -/
def pySplitAux : List Char → List Char → List (List Char)
  | [], acc => if acc.isEmpty then [] else [acc.reverse]
  | c :: cs, acc =>
    if isPySpace c then
      if acc.isEmpty then pySplitAux cs [] else acc.reverse :: pySplitAux cs []
    else pySplitAux cs (c :: acc)

/-- Python `str.split()` with no separator. -/
def pySplit (l : List Char) : List (List Char) := pySplitAux l []

/-- Python `str.lower()` on the ASCII range (the intent labels compared
against are all ASCII). -/
def lowerChar (c : Char) : Char :=
  if 'A' ≤ c ∧ c ≤ 'Z' then Char.ofNat (c.toNat + 32) else c

/-- Python `str.strip(chars)`: drop characters satisfying `p` from both ends. -/
def stripChars (p : Char → Bool) (l : List Char) : List Char :=
  ((l.dropWhile p).reverse.dropWhile p).reverse

/-- `startsWithL pre l` is true when `pre` is an initial segment of `l`. -/
def startsWithL : List Char → List Char → Bool
  | [], _ => true
  | _ :: _, [] => false
  | a :: as, b :: bs => a = b && startsWithL as bs

/-- Python substring test `needle in haystack`. -/
def containsSub (needle : List Char) : List Char → Bool
  | [] => needle.isEmpty
  | c :: cs => startsWithL needle (c :: cs) || containsSub needle cs

-- ════════════════════════════════════════════════════════════════════
-- config.py
-- ════════════════════════════════════════════════════════════════════

def KB_TOP_K : Nat := 3

def KB_CHUNK_SIZE : Nat := 400

def MAX_HISTORY_TURNS : Nat := 8

def INTENTS : List (List Char) :=
  ["greeting".toList, "general_inquiry".toList, "account_information".toList,
   "product_inquiry".toList, "card_block_request".toList]

def ACCOUNT_NOT_FOUND_MSG : List Char :=
  "I couldn\x27t find a Globus Bank account matching that number. You\x27re welcome to ask about our products and services.".toList

def ANONYMOUS_RESTRICTION_MSG : List Char :=
  "I can only provide general product information for unauthenticated sessions. Please provide a valid account number for account-specific assistance.".toList

def CARD_BLOCK_ANONYMOUS_MSG : List Char :=
  "Card blocking requires a verified account. Please provide your account number so I can assist you.".toList

-- ════════════════════════════════════════════════════════════════════
-- modules/intent.py
-- ════════════════════════════════════════════════════════════════════

/-- Text of `_build_prompt` in `modules/intent.py` before the interpolated
message. -/
def intentPromptPre : List Char :=
  "<|system|>\nYou are an intent classifier for a Globus Bank customer support chatbot.\n\nClassify the user message into exactly one intent from this list:\n- greeting: user is saying hello or starting a conversation\n- general_inquiry: broad or unclear question not specifically about their account or a product\n- account_information: question about their account balance, transactions, cards, account status, or account details\n- product_inquiry: question about bank products (loans, savings, investments, debit cards, features, eligibility)\n\nReply with ONLY the intent name. No explanation. No punctuation. Just the single intent word or phrase.\n<|end|>\n<|user|>\nMessage: ".toList

/-- Text of `_build_prompt` in `modules/intent.py` after the interpolated
message. -/
def intentPromptSuf : List Char := "\n<|assistant|>\nIntent:".toList

/-- `_build_prompt` of `modules/intent.py`. -/
def _build_prompt (message : List Char) : List Char :=
  intentPromptPre ++ message ++ intentPromptSuf

/-- The punctuation characters stripped by `classify_intent`:
`.`, `,`, `!`, `?`, double quote, single quote (39). -/
def isIntentPunct (c : Char) : Bool :=
  c = '.' || c = ',' || c = '!' || c = '?' || c = '"' || c = Char.ofNat 39

/-- `raw.strip().split()[0].lower().strip(".,!?\x22\x27") if raw.strip() else ""`
from `classify_intent`. -/
def firstNorm (raw : List Char) : List Char :=
  if pyStrip raw = [] then []
  else
    match pySplit (pyStrip raw) with
    | [] => []
    | w :: _ => stripChars isIntentPunct (w.map lowerChar)

/-- The parsing policy of `classify_intent` applied to a raw completion:
first-token match, then substring scan in `INTENTS` order, then the
`general_inquiry` fallback. -/
def classifyParse (raw : List Char) : List Char :=
  if firstNorm raw ∈ INTENTS then firstNorm raw
  else
    match INTENTS.find? (fun i => containsSub i (raw.map lowerChar)) with
    | some i => i
    | none => "general_inquiry".toList

/-- `classify_intent` of `modules/intent.py`.  The text-completion service is
injected as `gen`; `Except.error` models any exception raised by the call,
which the source catches and resolves to the fallback label. -/
def classify_intent (gen : List Char → Except Unit (List Char)) (message : List Char) :
    List Char :=
  match gen (_build_prompt message) with
  | Except.error _ => "general_inquiry".toList
  | Except.ok raw => classifyParse raw

-- ════════════════════════════════════════════════════════════════════
-- Data model (modules/auth.py records)
-- ════════════════════════════════════════════════════════════════════

/-- A card record from the `Card` sheet, as built by `_load_workbook`
(the activation date only feeds context formatting and is omitted). -/
structure Card where
  account_no : List Char
  card_issuer : List Char
  card_type : List Char
  status : List Char
 deriving DecidableEq

/-- A customer profile as built by `_load_workbook`.  The `accounts` and
`transactions_by_account` fields feed only `format_customer_context`
(float and date formatting, injected below as the prompt builder) and are
omitted here. -/
structure Customer where
  id : Nat
  name : List Char
  cards : List Card
 deriving DecidableEq

/-- The in-memory store of `modules/auth.py`: `_ACCOUNTS_BY_NO` maps an
account number to the owning customer id, `_CUSTOMERS_BY_ID` maps the id to
the profile. -/
structure Database where
  accounts_by_no : List (Int × Nat)
  customers_by_id : List (Nat × Customer)
 deriving DecidableEq

-- ════════════════════════════════════════════════════════════════════
-- Python int() parsing (modules/auth.py get_customer)
-- ════════════════════════════════════════════════════════════════════

/-- Digit tail of a Python integer literal: digits with single underscores
allowed between digits only. -/
def parseDigitTail (acc : Nat) : List Char → Option Nat
  | [] => some acc
  | '_' :: c :: cs =>
    if c.isDigit then parseDigitTail (acc * 10 + (c.toNat - 48)) cs else none
  | c :: cs =>
    if c.isDigit then parseDigitTail (acc * 10 + (c.toNat - 48)) cs else none

/-- A Python integer literal body must start with a digit. -/
def parseDigitStart : List Char → Option Nat
  | [] => none
  | c :: cs => if c.isDigit then parseDigitTail (c.toNat - 48) cs else none

/-- Python `int(s)` on an already-stripped string: optional sign then an
ASCII digit sequence (underscore separators allowed between digits);
`none` models the `ValueError` caught by `get_customer`. -/
def pyParseInt (l : List Char) : Option Int :=
  match l with
  | '+' :: rest => (parseDigitStart rest).map (fun n => (n : Int))
  | '-' :: rest => (parseDigitStart rest).map (fun n => -(n : Int))
  | rest => (parseDigitStart rest).map (fun n => (n : Int))

/-- `get_customer` of `modules/auth.py`: strip, parse as int (returning
`none` on `ValueError`), look up the account, then the owning customer. -/
def get_customer (db : Database) (account_number : List Char) : Option Customer :=
  match pyParseInt (pyStrip account_number) with
  | none => none
  | some acc_no =>
    match db.accounts_by_no.find? (fun p => decide (p.1 = acc_no)) with
    | none => none
    | some p => (db.customers_by_id.find? (fun q => decide (q.1 = p.2))).map (fun q => q.2)

-- ════════════════════════════════════════════════════════════════════
-- modules/response.py
-- ════════════════════════════════════════════════════════════════════

/-- A conversation turn `{role, content}`. -/
inductive Role where
  | user
  | assistant
 deriving DecidableEq

structure Turn where
  role : Role
  content : List Char
 deriving DecidableEq

/-- The type of `_build_prompt` in `modules/response.py`
(message, intent, customer, queried_account, product_docs, history).
Prompt assembly formats balances (`:,.2f`) and dates, so it is injected as an
opaque collaborator; no claim inspects the assembled text. -/
abbrev PromptBuilder :=
  List Char → List Char → Option Customer → Option (List Char) → Option (List Char) →
    List Turn → List Char

def GENERATION_ERROR_MSG : List Char :=
  "I\x27m having trouble responding right now. Please try again in a moment.".toList

/-- `generate_response` of `modules/response.py`.  The returned `Nat` counts
the calls made to the text-completion service `gen` (the source makes at most
one).  The anonymous access-control gate returns fixed messages before any
call; otherwise the model is called once, with any exception degraded to the
fixed apology string. -/
def generate_response (gen : List Char → Except Unit (List Char)) (buildP : PromptBuilder)
    (message intent : List Char) (customer : Option Customer)
    (queried_account product_docs : Option (List Char)) (history : List Turn) :
    List Char × Nat :=
  if customer = none ∧ intent = "account_information".toList then
    (ANONYMOUS_RESTRICTION_MSG, 0)
  else if customer = none ∧ intent = "card_block_request".toList then
    (CARD_BLOCK_ANONYMOUS_MSG, 0)
  else
    match gen (buildP message intent customer queried_account product_docs history) with
    | Except.ok t => (t, 1)
    | Except.error _ => (GENERATION_ERROR_MSG, 1)

-- ════════════════════════════════════════════════════════════════════
-- modules/knowledge_base.py — _split_into_chunks
-- ════════════════════════════════════════════════════════════════════

/-- Lookahead of the primary split `re.split(r'\n(?=[A-Z][^\n]{2,50}\n)', text)`:
the newline is a boundary when the following line starts with an ASCII capital,
continues with 2 to 50 non-newline characters, and is newline-terminated. -/
def headerLookahead (rest : List Char) : Bool :=
  match rest with
  | [] => false
  | c :: cs =>
    decide ('A' ≤ c ∧ c ≤ 'Z') &&
      (match cs.findIdx? (fun x => x == '\n') with
       | some m => decide (2 ≤ m ∧ m ≤ 50)
       | none => false)

/-- Lookahead of the secondary split `re.split(r'\n(?=\d+\. )', section)`:
the newline is a boundary when followed by one or more ASCII digits, a dot
and a space. -/
def numberedLookahead (rest : List Char) : Bool :=
  let ds := rest.takeWhile Char.isDigit
  !ds.isEmpty &&
    (match rest.drop ds.length with
     | '.' :: ' ' :: _ => true
     | _ => false)

/-- `re.split` on newlines whose right context satisfies the lookahead `p`;
the newline itself is consumed.  `acc` is the current segment, reversed. -/
def splitOnNl (p : List Char → Bool) : List Char → List Char → List (List Char)
  | [], acc => [acc.reverse]
  | c :: cs, acc =>
    if (c == '\n') && p cs then acc.reverse :: splitOnNl p cs []
    else splitOnNl p cs (c :: acc)

def reSplitNl (p : List Char → Bool) (text : List Char) : List (List Char) :=
  splitOnNl p text []

/-- The body of the section loop in `_split_into_chunks`: strip, discard
sections shorter than 30 characters, keep sections within `KB_CHUNK_SIZE`,
otherwise split on numbered sub-items and keep the non-empty pieces. -/
def processSection (s0 : List Char) : List (List Char) :=
  let s := pyStrip s0
  if s.length < 30 then []
  else if s.length ≤ KB_CHUNK_SIZE then [s]
  else ((reSplitNl numberedLookahead s).map pyStrip).filter (fun sub => !sub.isEmpty)

/-- `_split_into_chunks` of `modules/knowledge_base.py`. -/
def _split_into_chunks (text : List Char) : List (List Char) :=
  (((reSplitNl headerLookahead text).map processSection).flatten).filter
    (fun c => decide (20 < c.length))

-- ════════════════════════════════════════════════════════════════════
-- modules/knowledge_base.py — get_relevant_info ranking
-- ════════════════════════════════════════════════════════════════════

/-- Stable ascending insertion of index `i` into an already ranked index list:
`i` goes after every index of score ≤ its own (numpy stable-argsort order for
the small arrays this repository builds). -/
def insertRanked (s : Nat → ℚ) (i : Nat) : List Nat → List Nat
  | [] => [i]
  | j :: t => if s j ≤ s i then j :: insertRanked s i t else i :: j :: t

/-- `np.argsort(similarity)` over chunk indices `0 .. n-1`, modelled as a
stable ascending sort by score. -/
def argsortAsc (s : Nat → ℚ) (n : Nat) : List Nat :=
  (List.range n).foldl (fun acc i => insertRanked s i acc) []

/-- `np.argsort(similarity)[::-1][:top_k]` from `get_relevant_info`. -/
def rankIndices (s : Nat → ℚ) (n k : Nat) : List Nat :=
  ((argsortAsc s n).reverse).take k

/-- `top_chunks = [_CHUNKS[i] for i in top_idx]` from `get_relevant_info`;
the query-to-chunk similarity scores `s` come from the injected encoder. -/
def getRelevantChunks (chunks : List (List Char)) (s : Nat → ℚ) (k : Nat) :
    List (List Char) :=
  (rankIndices s chunks.length k).map (fun i => chunks.getD i [])

/-- The ordering asserted by the spec for tied scores: descending scores, a
tie putting the chunk of smaller original index first. -/
def claimTie (s : Nat → ℚ) (a b : Nat) : Prop :=
  s b ≤ s a ∧ (s a = s b → a < b)

/-- The ordering the code actually produces for tied scores: descending
scores, a tie putting the chunk of larger original index first (the
ascending argsort is reversed). -/
def codeTie (s : Nat → ℚ) (a b : Nat) : Prop :=
  s b ≤ s a ∧ (s a = s b → b < a)

/-- Ascending counterpart used for the argsort invariant. -/
def rankedOrder (s : Nat → ℚ) (a b : Nat) : Prop :=
  s a ≤ s b ∧ (s a = s b → a < b)

-- ════════════════════════════════════════════════════════════════════
-- Modelled part: block_card (imported in app.py, absent from src/)
-- ════════════════════════════════════════════════════════════════════

/-- Result dict of `block_card`: `{success, message, reference}`. -/
structure BlockResult where
  success : Bool
  message : List Char
  reference : Option (List Char)
 deriving DecidableEq

/-- `"No {issuer} {type} card found on this account."` -/
def noCardMsg (card_issuer card_type : List Char) : List Char :=
  ("No ".toList) ++ card_issuer ++ (" ".toList) ++ card_type ++
    (" card found on this account.".toList)

def blockedMsg : List Char := "This card is already blocked.".toList

/-- `"Your {issuer} {type} card linked to account {acct} has been successfully blocked."` -/
def blockSuccessMsg (card_issuer card_type account_number : List Char) : List Char :=
  ("Your ".toList) ++ card_issuer ++ (" ".toList) ++ card_type ++
    (" card linked to account ".toList) ++ account_number ++
    (" has been successfully blocked.".toList)

/-- Modelled from the spec: `block_card` is imported in `app.py` from
`modules.auth` but has no definition under `src/`.  Its behaviour is modelled
from the `app.py` docstring and the spec's endpoint table: find the card on
the queried account matching the requested issuer and type; no match is a
not-found failure, an already blocked match is an already-blocked failure,
otherwise the block succeeds with a generated reference (reference generation
is opaque and injected as `refGen`). -/
def block_card (cards : List Card) (account_number card_issuer card_type : List Char)
    (refGen : List Char) : BlockResult :=
  match cards.find? (fun c => decide (c.card_issuer = card_issuer ∧ c.card_type = card_type)) with
  | none => ⟨false, noCardMsg card_issuer card_type, none⟩
  | some c =>
    if c.status = "Blocked".toList then ⟨false, blockedMsg, none⟩
    else ⟨true, blockSuccessMsg card_issuer card_type account_number, some refGen⟩

-- ════════════════════════════════════════════════════════════════════
-- app.py
-- ════════════════════════════════════════════════════════════════════

/-- Server-side Flask session state.  `authenticated = none` models the
`authenticated` key being absent from the session (what
`"authenticated" not in session` tests); `session.get` cannot distinguish an
absent key from a stored null, so the other fields are plain options. -/
structure Session where
  history : List Turn
  authenticated : Option Bool
  customer : Option Customer
  queried_account : Option (List Char)
 deriving DecidableEq

/-- `_trim_history` of `app.py`: keep only the last
`MAX_HISTORY_TURNS * 2` entries. -/
def _trim_history (history : List Turn) : List Turn :=
  if MAX_HISTORY_TURNS * 2 < history.length then
    history.drop (history.length - MAX_HISTORY_TURNS * 2)
  else history

def emptyAcctMsg : List Char := "Please enter an account number.".toList

def welcomeMsg (name : List Char) : List Char :=
  ("Welcome back, ".toList) ++ name ++ ("! How can I help you today?".toList)

/-- Response of `/api/authenticate`. -/
structure AuthResp where
  success : Bool
  name : Option (List Char)
  message : List Char
  status : Nat
 deriving DecidableEq

/-- The `/api/authenticate` route: validate the account number and initialise
the session (history cleared, `authenticated` key set to the lookup outcome). -/
def authenticate (db : Database) (st : Session) (body_account : Option (List Char)) :
    Session × AuthResp :=
  let account_number := pyStrip (body_account.getD [])
  if account_number = [] then (st, ⟨false, none, emptyAcctMsg, 400⟩)
  else
    let customer := get_customer db account_number
    let st2 : Session := ⟨[], some customer.isSome, customer, some account_number⟩
    match customer with
    | some c => (st2, ⟨true, some c.name, welcomeMsg c.name, 200⟩)
    | none => (st2, ⟨false, none, ACCOUNT_NOT_FOUND_MSG, 200⟩)

def err403ChatMsg : List Char := "Please enter your account number first.".toList

def emptyMsgMsg : List Char := "Message cannot be empty.".toList

/-- Response of `/api/chat`. -/
inductive ChatResp where
  | err (message : List Char) (status : Nat)
  | ok (reply : List Char) (intent : List Char)
 deriving DecidableEq

/-- `_KB_INTENTS` of `app.py`: the intents that trigger a knowledge-base
lookup. -/
def KB_INTENTS : List (List Char) :=
  ["product_inquiry".toList, "general_inquiry".toList]

/-- The `/api/chat` route: session-presence guard, empty-message guard,
classification, optional retrieval, response generation, history persistence.
`genI` and `genR` are the completion oracle as seen by the intent and
response modules, `kb` is the retrieval collaborator, `buildP` the response
prompt builder. -/
def chat (genI genR : List Char → Except Unit (List Char)) (kb : List Char → List Char)
    (buildP : PromptBuilder) (st : Session) (body_message : Option (List Char)) :
    Session × ChatResp :=
  match st.authenticated with
  | none => (st, ChatResp.err err403ChatMsg 403)
  | some _ =>
    let message := pyStrip (body_message.getD [])
    if message = [] then (st, ChatResp.err emptyMsgMsg 400)
    else
      let intent := classify_intent genI message
      let product_docs := if intent ∈ KB_INTENTS then some (kb message) else none
      let reply := (generate_response genR buildP message intent st.customer
        st.queried_account product_docs st.history).1
      let history2 := st.history ++ [⟨Role.user, message⟩, ⟨Role.assistant, reply⟩]
      ({ st with history := _trim_history history2 }, ChatResp.ok reply intent)

def authRequiredMsg : List Char := "Authentication required.".toList

def noAccountSessionMsg : List Char := "No account found in session.".toList

def fieldsRequiredMsg : List Char :=
  "Both \x27card_issuer\x27 and \x27card_type\x27 are required.".toList

def alreadyBlockedTok : List Char := "already blocked".toList

/-- Response of `/api/block-card` (body fields plus HTTP status). -/
structure BlockCardResp where
  success : Bool
  message : List Char
  reference : Option (List Char)
  status : Nat
 deriving DecidableEq

/-- The `/api/block-card` route: authentication guards, field validation,
the (modelled) `block_card` call, and the status dispatch
`400 if "already blocked" in result["message"] else 404` on failure.
`cardsOf` maps the queried account number to its linked cards. -/
def block_card_route (cardsOf : List Char → List Card) (refGen : List Char)
    (st : Session) (body_issuer body_type : Option (List Char)) : BlockCardResp :=
  if st.authenticated.getD false = false then
    ⟨false, authRequiredMsg, none, 403⟩
  else
    match st.customer with
    | none => ⟨false, noAccountSessionMsg, none, 403⟩
    | some _ =>
      let card_issuer := pyStrip (body_issuer.getD [])
      let card_type := pyStrip (body_type.getD [])
      if card_issuer = [] ∨ card_type = [] then ⟨false, fieldsRequiredMsg, none, 400⟩
      else
        let account_number := (st.queried_account).getD []
        let result := block_card (cardsOf account_number) account_number card_issuer
          card_type refGen
        let status := if result.success then 200
          else if containsSub alreadyBlockedTok result.message then 400 else 404
        ⟨result.success, result.message, result.reference, status⟩

-- ════════════════════════════════════════════════════════════════════
-- Concrete inputs used by witnesses
-- ════════════════════════════════════════════════════════════════════

def wCard : Card := ⟨"100".toList, "Visa".toList, "Credit".toList, "Active".toList⟩

def wCardB : Card := ⟨"100".toList, "Visa".toList, "Credit".toList, "Blocked".toList⟩

def wCustomer : Customer := ⟨1, "Ada".toList, [wCard]⟩

def wSession : Session := ⟨[], some true, some wCustomer, some ("100".toList)⟩

def wSessionNone : Session := ⟨[], none, none, none⟩

-- ════════════════════════════════════════════════════════════════════
-- Helper lemmas: the ranking pass
-- ════════════════════════════════════════════════════════════════════

theorem mem_insertRanked (s : Nat → ℚ) (i x : Nat) (l : List Nat) :
    x ∈ insertRanked s i l ↔ x = i ∨ x ∈ l := by
  induction l with
  | nil => simp [insertRanked]
  | cons j t ih =>
    by_cases h : s j ≤ s i
    · simp only [insertRanked, if_pos h, List.mem_cons, ih]
      tauto
    · simp only [insertRanked, if_neg h, List.mem_cons]

theorem perm_insertRanked (s : Nat → ℚ) (i : Nat) (l : List Nat) :
    (insertRanked s i l).Perm (i :: l) := by
  induction l with
  | nil => simp [insertRanked]
  | cons j t ih =>
    by_cases h : s j ≤ s i
    · rw [insertRanked, if_pos h]
      exact (ih.cons j).trans (List.Perm.swap i j t)
    · rw [insertRanked, if_neg h]

theorem foldl_insertRanked_perm (s : Nat → ℚ) (l acc : List Nat) :
    (l.foldl (fun a i => insertRanked s i a) acc).Perm (acc ++ l) := by
  induction l generalizing acc with
  | nil => simp
  | cons i t ih =>
    rw [List.foldl_cons]
    refine (ih (insertRanked s i acc)).trans ?_
    refine (List.Perm.append_right t (perm_insertRanked s i acc)).trans ?_
    exact List.perm_middle.symm

theorem argsortAsc_perm (s : Nat → ℚ) (n : Nat) :
    (argsortAsc s n).Perm (List.range n) := by
  simpa [argsortAsc] using foldl_insertRanked_perm s (List.range n) []

theorem pairwise_insertRanked (s : Nat → ℚ) (i : Nat) (l : List Nat)
    (hp : List.Pairwise (rankedOrder s) l) (hlt : ∀ j ∈ l, j < i) :
    List.Pairwise (rankedOrder s) (insertRanked s i l) := by
  induction l with
  | nil => simp [insertRanked, rankedOrder]
  | cons j t ih =>
    rcases List.pairwise_cons.mp hp with ⟨hj, ht⟩
    by_cases h : s j ≤ s i
    · rw [insertRanked, if_pos h]
      refine List.pairwise_cons.mpr ⟨?_, ih ht (fun x hx => hlt x (List.mem_cons_of_mem j hx))⟩
      intro x hx
      rcases (mem_insertRanked s i x t).mp hx with rfl | hxt
      · exact ⟨h, fun _ => hlt j (List.mem_cons_self j t)⟩
      · exact hj x hxt
    · rw [insertRanked, if_neg h]
      have hij : s i < s j := lt_of_not_le h
      refine List.pairwise_cons.mpr ⟨?_, hp⟩
      intro x hx
      rcases List.mem_cons.mp hx with rfl | hxt
      · exact ⟨le_of_lt hij, fun he => absurd he (ne_of_lt hij)⟩
      · have hx2 := hj x hxt
        exact ⟨le_trans (le_of_lt hij) hx2.1,
          fun he => ((ne_of_lt (lt_of_lt_of_le hij hx2.1)) he).elim⟩

theorem pairwise_foldl_insertRanked (s : Nat → ℚ) (l : List Nat) :
    ∀ acc : List Nat, List.Pairwise (rankedOrder s) acc →
    List.Pairwise (fun a b => a < b) l →
    (∀ j ∈ acc, ∀ i ∈ l, j < i) →
    List.Pairwise (rankedOrder s) (l.foldl (fun a i => insertRanked s i a) acc) := by
  induction l with
  | nil => intro acc hacc _ _; simpa using hacc
  | cons i t ih =>
    intro acc hacc hl hcross
    rw [List.foldl_cons]
    rcases List.pairwise_cons.mp hl with ⟨hi, ht⟩
    refine ih (insertRanked s i acc)
      (pairwise_insertRanked s i acc hacc (fun j hj => hcross j hj i (List.mem_cons_self i t)))
      ht ?_
    intro j hj k hk
    rcases (mem_insertRanked s i j acc).mp hj with rfl | hja
    · exact hi k hk
    · exact hcross j hja k (List.mem_cons_of_mem i hk)

theorem argsortAsc_pairwise (s : Nat → ℚ) (n : Nat) :
    List.Pairwise (rankedOrder s) (argsortAsc s n) := by
  refine pairwise_foldl_insertRanked s (List.range n) [] List.Pairwise.nil
    (List.pairwise_lt_range n) ?_
  intro j hj
  simp at hj

theorem rankIndices_pairwise (s : Nat → ℚ) (n k : Nat) :
    List.Pairwise (codeTie s) (rankIndices s n k) := by
  have h1 : List.Pairwise (fun a b => rankedOrder s b a) (argsortAsc s n).reverse :=
    List.pairwise_reverse.mpr (argsortAsc_pairwise s n)
  have h2 : List.Pairwise (codeTie s) (argsortAsc s n).reverse :=
    h1.imp (fun hab => ⟨hab.1, fun he => hab.2 he.symm⟩)
  exact h2.sublist (List.take_sublist k _)

theorem map_getD_range {α : Type} (l : List α) (d : α) :
    (List.range l.length).map (fun i => l.getD i d) = l := by
  induction l with
  | nil => rfl
  | cons a t ih =>
    rw [List.length_cons, List.range_succ_eq_map, List.map_cons, List.map_map]
    have h : ((fun i => (a :: t).getD i d) ∘ fun i => i + 1) = fun i => t.getD i d := by
      funext i
      simp [List.getD_cons_succ]
    rw [h, ih]
    simp [List.getD_cons_zero]

-- ════════════════════════════════════════════════════════════════════
-- Claim theorems
-- ════════════════════════════════════════════════════════════════════

/-- C3 (amended): for every score assignment, chunk count and `k`, the index
sequence produced by the `np.argsort(similarity)[::-1][:top_k]` pass of
`get_relevant_info` is ordered by similarity descending, but chunks whose
scores tie appear with the larger original index first — the ascending
argsort order is reversed — not with the smaller index first. -/
theorem rank_desc_reverse_ties (s : Nat → ℚ) (n k : Nat) :
    List.Pairwise (codeTie s) (rankIndices s n k) :=
  rankIndices_pairwise s n k

/-- C3 counterexample: with two stored chunks of equal similarity to the
query, the ranked sequence is `[1, 0]` — larger original index first — so the
claimed stable smaller-index-first tie-breaking (`claimTie`) fails. -/
theorem rank_ties_not_stable :
    rankIndices (fun _ => (0:ℚ)) 2 2 = [1, 0] ∧
    ¬ List.Pairwise (claimTie (fun _ => (0:ℚ))) (rankIndices (fun _ => (0:ℚ)) 2 2) := by
  have he : rankIndices (fun _ => (0:ℚ)) 2 2 = [1, 0] := by decide
  refine ⟨he, ?_⟩
  intro hp
  rw [he] at hp
  rcases List.pairwise_cons.mp hp with ⟨h10, _⟩
  have h2 := (h10 0 (List.mem_singleton.mpr rfl)).2 rfl
  omega

/-- C7: the `get_relevant_info` ranking returns at most `k` chunks, `k = 0`
returns the empty sequence, and when `k` is at least the number of stored
chunks the result is a permutation of all stored chunks. -/
theorem query_topk_bounds (chunks : List (List Char)) (s : Nat → ℚ) (k : Nat) :
    (getRelevantChunks chunks s k).length ≤ k ∧
    getRelevantChunks chunks s 0 = [] ∧
    (chunks.length ≤ k → (getRelevantChunks chunks s k).Perm chunks) := by
  refine ⟨?_, rfl, ?_⟩
  · simp only [getRelevantChunks, rankIndices, List.length_map, List.length_take]
    exact min_le_left _ _
  · intro hk
    have hlen : (argsortAsc s chunks.length).reverse.length = chunks.length := by
      rw [List.length_reverse, (argsortAsc_perm s chunks.length).length_eq,
        List.length_range]
    have htake : rankIndices s chunks.length k = (argsortAsc s chunks.length).reverse := by
      rw [rankIndices]
      exact List.take_of_length_le (by rw [hlen]; exact hk)
    have hperm : (rankIndices s chunks.length k).Perm (List.range chunks.length) := by
      rw [htake]
      exact (List.reverse_perm _).trans (argsortAsc_perm s chunks.length)
    have h2 := hperm.map (fun i => chunks.getD i [])
    rw [map_getD_range chunks []] at h2
    simpa [getRelevantChunks] using h2

/-- Witness for C7 at a concrete one-chunk store. -/
theorem query_topk_bounds_witness :
    (getRelevantChunks [("a".toList)] (fun _ => (0:ℚ)) 3).length ≤ 3 ∧
    getRelevantChunks [("a".toList)] (fun _ => (0:ℚ)) 0 = [] ∧
    (getRelevantChunks [("a".toList)] (fun _ => (0:ℚ)) 3).Perm [("a".toList)] := by
  have h := query_topk_bounds [("a".toList)] (fun _ => (0:ℚ)) 3
  exact ⟨h.1, h.2.1, h.2.2 (by decide)⟩

set_option maxRecDepth 8000 in
/-- C4 counterexample: a single 401-character text with no header or
numbered-item boundary is emitted as one chunk of length 401, which is not
below `KB_CHUNK_SIZE = 400`. -/
theorem chunker_oversize_chunk :
    _split_into_chunks (List.replicate 401 'a') = [List.replicate 401 'a'] ∧
    ¬ ((List.replicate 401 'a').length < KB_CHUNK_SIZE) := by
  constructor
  · decide
  · decide

/-- C4 (amended): every chunk produced by `_split_into_chunks` is non-empty
(indeed longer than 20 characters), the chunker is a total function (never
raises), and the degenerate empty input yields zero chunks.  Chunks are not
always below `KB_CHUNK_SIZE`: an oversized section with no numbered sub-item
boundary is emitted whole (see the counterexample). -/
theorem chunker_chunks_nonempty (text c : List Char) (h : c ∈ _split_into_chunks text) :
    c ≠ [] ∧ 20 < c.length ∧ _split_into_chunks [] = [] := by
  rw [_split_into_chunks] at h
  have h3 : 20 < c.length := by simpa using (List.mem_filter.mp h).2
  refine ⟨?_, h3, rfl⟩
  intro he
  rw [he] at h3
  simp at h3

/-- Witness for C4 at a concrete 30-character document. -/
theorem chunker_chunks_nonempty_witness :
    List.replicate 30 'a' ≠ ([] : List Char) ∧
    20 < (List.replicate 30 'a').length ∧ _split_into_chunks [] = [] :=
  chunker_chunks_nonempty (List.replicate 30 'a') (List.replicate 30 'a') (by decide)

/-- C8: appending a user and an assistant turn and trimming never leaves more
than `MAX_HISTORY_TURNS * 2` entries; the stored history is a suffix of the
appended history (the oldest entries are the ones dropped, FIFO) of length
`min (len + 2) (2 * N)`, and a history still within the cap after the append
is stored unchanged. -/
theorem history_cap (history : List Turn) (u a : Turn) :
    (_trim_history (history ++ [u, a])).length ≤ MAX_HISTORY_TURNS * 2 ∧
    (_trim_history (history ++ [u, a])) <:+ (history ++ [u, a]) ∧
    (_trim_history (history ++ [u, a])).length =
      min ((history ++ [u, a]).length) (MAX_HISTORY_TURNS * 2) ∧
    ((history ++ [u, a]).length ≤ MAX_HISTORY_TURNS * 2 →
      _trim_history (history ++ [u, a]) = history ++ [u, a]) := by
  by_cases h : MAX_HISTORY_TURNS * 2 < (history ++ [u, a]).length
  · rw [_trim_history, if_pos h]
    refine ⟨?_, List.drop_suffix _ _, ?_, ?_⟩
    · rw [List.length_drop]
      omega
    · rw [List.length_drop]
      omega
    · intro h2
      exact absurd h2 (by omega)
  · rw [_trim_history, if_neg h]
    push_neg at h
    exact ⟨h, List.suffix_refl _, by omega, fun _ => rfl⟩

/-- Witness for C8 at a concrete two-entry history. -/
theorem history_cap_witness :
    _trim_history ([] ++ [⟨Role.user, []⟩, ⟨Role.assistant, []⟩]) =
      [] ++ [⟨Role.user, []⟩, ⟨Role.assistant, []⟩] :=
  (history_cap [] ⟨Role.user, []⟩ ⟨Role.assistant, []⟩).2.2.2 (by decide)

/-- C1: for every message, history and retrieved-docs value, a null customer
with intent `account_information` makes `generate_response` return exactly
`ANONYMOUS_RESTRICTION_MSG` with zero completion-service calls, and a null
customer with intent `card_block_request` makes it return exactly
`CARD_BLOCK_ANONYMOUS_MSG` with zero calls. -/
theorem generate_response_anonymous_restrictions
    (gen : List Char → Except Unit (List Char)) (buildP : PromptBuilder)
    (message : List Char) (queried_account product_docs : Option (List Char))
    (history : List Turn) :
    generate_response gen buildP message ("account_information".toList) none
        queried_account product_docs history = (ANONYMOUS_RESTRICTION_MSG, 0) ∧
    generate_response gen buildP message ("card_block_request".toList) none
        queried_account product_docs history = (CARD_BLOCK_ANONYMOUS_MSG, 0) := by
  constructor
  · rw [generate_response, if_pos ⟨rfl, rfl⟩]
  · rw [generate_response, if_neg (by decide), if_pos ⟨rfl, rfl⟩]

/-- C5: `classify_intent` never propagates an exception to its caller: a
completion-service error resolves to `general_inquiry`, as does an empty
completion, and a completion matching no intent label (neither by normalised
first token nor by the substring scan). -/
theorem classify_intent_total_fallback
    (gen : List Char → Except Unit (List Char)) (message : List Char) :
    (∀ e, gen (_build_prompt message) = Except.error e →
      classify_intent gen message = "general_inquiry".toList) ∧
    (gen (_build_prompt message) = Except.ok [] →
      classify_intent gen message = "general_inquiry".toList) ∧
    (∀ raw, gen (_build_prompt message) = Except.ok raw →
      firstNorm raw ∉ INTENTS →
      INTENTS.find? (fun i => containsSub i (raw.map lowerChar)) = none →
      classify_intent gen message = "general_inquiry".toList) := by
  refine ⟨?_, ?_, ?_⟩
  · intro e h
    rw [classify_intent, h]
  · intro h
    rw [classify_intent, h]
    decide
  · intro raw h h1 h2
    simp only [classify_intent, h]
    unfold classifyParse
    rw [if_neg h1, h2]

/-- Witness for C5 at a failing completion service. -/
theorem classify_intent_total_fallback_witness :
    classify_intent (fun _ => Except.error ()) [] = "general_inquiry".toList :=
  (classify_intent_total_fallback (fun _ => Except.error ()) []).1 () rfl

/-- C6: the parsing policy of `classify_intent`, applied in order: a
normalised first token (lower-cased, stripped of surrounding punctuation)
equal to an intent label is returned; otherwise the first label in `INTENTS`
enumeration order occurring as a substring of the lower-cased completion is
returned; otherwise `general_inquiry`.  The literal completion `greeting`
yields the intent `greeting`. -/
theorem classify_intent_parsing_policy
    (gen : List Char → Except Unit (List Char)) (message raw : List Char)
    (hok : gen (_build_prompt message) = Except.ok raw) :
    (firstNorm raw ∈ INTENTS → classify_intent gen message = firstNorm raw) ∧
    (firstNorm raw ∉ INTENTS →
      ∀ i, INTENTS.find? (fun l => containsSub l (raw.map lowerChar)) = some i →
        classify_intent gen message = i) ∧
    (firstNorm raw ∉ INTENTS →
      INTENTS.find? (fun l => containsSub l (raw.map lowerChar)) = none →
        classify_intent gen message = "general_inquiry".toList) ∧
    (∀ gen2 : List Char → Except Unit (List Char), ∀ message2,
      gen2 (_build_prompt message2) = Except.ok ("greeting".toList) →
      classify_intent gen2 message2 = "greeting".toList) := by
  refine ⟨?_, ?_, ?_, ?_⟩
  · intro h1
    simp only [classify_intent, hok]
    unfold classifyParse
    rw [if_pos h1]
  · intro h1 i h2
    simp only [classify_intent, hok]
    unfold classifyParse
    rw [if_neg h1, h2]
  · intro h1 h2
    simp only [classify_intent, hok]
    unfold classifyParse
    rw [if_neg h1, h2]
  · intro gen2 message2 h2
    rw [classify_intent, h2]
    decide

/-- Witness for C6 at the literal completion `greeting`. -/
theorem classify_intent_parsing_policy_witness :
    classify_intent (fun _ => Except.ok ("greeting".toList)) [] = "greeting".toList :=
  (classify_intent_parsing_policy (fun _ => Except.ok ("greeting".toList)) []
    ("greeting".toList) rfl).1 (by decide)

/-- C9: `get_customer` is total over strings and returns `none` for every
input that does not parse as an integer after stripping whitespace; such a
malformed input is indistinguishable from a well-formed but unknown account
number (both map to `none`). -/
theorem get_customer_malformed_total (db : Database) (s : List Char)
    (h : pyParseInt (pyStrip s) = none) :
    get_customer db s = none ∧
    (∀ t n, pyParseInt (pyStrip t) = some n →
      db.accounts_by_no.find? (fun p => decide (p.1 = n)) = none →
      get_customer db s = get_customer db t) := by
  constructor
  · simp only [get_customer, h]
  · intro t n ht hfind
    simp only [get_customer, h, ht, hfind]

/-- Witness for C9 at an alphanumeric account id on the empty store. -/
theorem get_customer_malformed_total_witness :
    get_customer ⟨[], []⟩ ("ABC123".toList) = none ∧
    get_customer ⟨[], []⟩ ("ABC123".toList) = get_customer ⟨[], []⟩ ("999".toList) := by
  have h := get_customer_malformed_total ⟨[], []⟩ ("ABC123".toList) (by decide)
  exact ⟨h.1, h.2 ("999".toList) 999 (by decide) rfl⟩

-- ════════════════════════════════════════════════════════════════════
-- Helper lemmas: route evaluation
-- ════════════════════════════════════════════════════════════════════

theorem chat_none (genI genR : List Char → Except Unit (List Char))
    (kb : List Char → List Char) (buildP : PromptBuilder) (st : Session)
    (body : Option (List Char)) (h : st.authenticated = none) :
    chat genI genR kb buildP st body = (st, ChatResp.err err403ChatMsg 403) := by
  unfold chat
  rw [h]

theorem chat_400 (genI genR : List Char → Except Unit (List Char))
    (kb : List Char → List Char) (buildP : PromptBuilder) (st : Session)
    (body : Option (List Char)) (b : Bool) (h : st.authenticated = some b)
    (hm : pyStrip (body.getD []) = []) :
    (chat genI genR kb buildP st body).2 = ChatResp.err emptyMsgMsg 400 := by
  unfold chat
  rw [h]
  simp only [if_pos hm]

theorem chat_ok (genI genR : List Char → Except Unit (List Char))
    (kb : List Char → List Char) (buildP : PromptBuilder) (st : Session)
    (body : Option (List Char)) (b : Bool) (h : st.authenticated = some b)
    (hm : pyStrip (body.getD []) ≠ []) :
    (chat genI genR kb buildP st body).2 =
      ChatResp.ok ((generate_response genR buildP (pyStrip (body.getD []))
          (classify_intent genI (pyStrip (body.getD []))) st.customer st.queried_account
          (if classify_intent genI (pyStrip (body.getD [])) ∈ KB_INTENTS
           then some (kb (pyStrip (body.getD []))) else none) st.history).1)
        (classify_intent genI (pyStrip (body.getD []))) := by
  unfold chat
  rw [h]
  simp only [if_neg hm]

theorem authenticate_miss (db : Database) (st0 : Session) (acct : List Char)
    (hacct : pyStrip acct ≠ []) (hmiss : get_customer db (pyStrip acct) = none) :
    authenticate db st0 (some acct) =
      (⟨[], some false, none, some (pyStrip acct)⟩,
        ⟨false, none, ACCOUNT_NOT_FOUND_MSG, 200⟩) := by
  unfold authenticate
  simp only [Option.getD_some, if_neg hacct, hmiss, Option.isSome_none]

-- ════════════════════════════════════════════════════════════════════
-- Claim theorems: the routes
-- ════════════════════════════════════════════════════════════════════

/-- C10: the `/api/chat` no-session 403 occurs exactly when the
`authenticated` session key is absent — the guard tests only key presence,
not its value — so after a failed authentication attempt (account not found:
`authenticated = false`, `customer = null`) a subsequent chat with a
non-empty message is processed normally as an anonymous restricted session
rather than rejected with 403. -/
theorem chat_guard_presence_only
    (genI genR : List Char → Except Unit (List Char)) (kb : List Char → List Char)
    (buildP : PromptBuilder) (db : Database) (st0 st : Session)
    (body : Option (List Char)) (acct msg : List Char)
    (hacct : pyStrip acct ≠ [])
    (hmiss : get_customer db (pyStrip acct) = none)
    (hmsg : pyStrip msg ≠ []) :
    ((chat genI genR kb buildP st body).2 = ChatResp.err err403ChatMsg 403 ↔
      st.authenticated = none) ∧
    ((authenticate db st0 (some acct)).1.authenticated = some false ∧
     (authenticate db st0 (some acct)).1.customer = none ∧
     ∃ reply intent,
       (chat genI genR kb buildP (authenticate db st0 (some acct)).1 (some msg)).2 =
         ChatResp.ok reply intent) := by
  constructor
  · constructor
    · intro h
      cases hauth : st.authenticated with
      | none => rfl
      | some b =>
        by_cases hm : pyStrip (body.getD []) = []
        · rw [chat_400 genI genR kb buildP st body b hauth hm] at h
          exact absurd h (by decide)
        · rw [chat_ok genI genR kb buildP st body b hauth hm] at h
          exact ChatResp.noConfusion h
    · intro h
      rw [chat_none genI genR kb buildP st body h]
  · rw [authenticate_miss db st0 acct hacct hmiss]
    refine ⟨rfl, rfl, ?_⟩
    exact ⟨_, _, chat_ok genI genR kb buildP _ (some msg) false rfl hmsg⟩

/-- Witness for C10 on the empty customer store. -/
theorem chat_guard_presence_only_witness :
    ((chat (fun _ => Except.error ()) (fun _ => Except.error ())
        (fun d => d) (fun _ _ _ _ _ _ => []) wSessionNone none).2 =
          ChatResp.err err403ChatMsg 403 ↔ wSessionNone.authenticated = none) ∧
    ((authenticate ⟨[], []⟩ wSessionNone (some ("123".toList))).1.authenticated =
        some false ∧
     (authenticate ⟨[], []⟩ wSessionNone (some ("123".toList))).1.customer = none ∧
     ∃ reply intent,
       (chat (fun _ => Except.error ()) (fun _ => Except.error ())
         (fun d => d) (fun _ _ _ _ _ _ => [])
         (authenticate ⟨[], []⟩ wSessionNone (some ("123".toList))).1
         (some ("hi".toList))).2 = ChatResp.ok reply intent) :=
  chat_guard_presence_only (fun _ => Except.error ()) (fun _ => Except.error ())
    (fun d => d) (fun _ _ _ _ _ _ => []) ⟨[], []⟩ wSessionNone wSessionNone none
    ("123".toList) ("hi".toList) (by decide) (by decide) (by decide)

/-- C2 (amended): on `/api/block-card`, an unauthenticated session (absent or
false `authenticated` key) receives a 403 failure; with an authenticated
session holding a customer and both fields present, the route returns success
true with the non-null generated reference and status 200 when the matching
card is not blocked, and a 400 failure with null reference when the matching
card is already blocked.  When no matching card exists the failure status is
404 — unless the interpolated not-found message itself contains the substring
`already blocked` (possible when the requested issuer or type text contains
it), in which case the route's message-substring dispatch yields 400. -/
theorem block_card_route_cases (cardsOf : List Char → List Card) (refGen : List Char)
    (st : Session) (bi bt : Option (List Char)) :
    (st.authenticated.getD false = false →
      block_card_route cardsOf refGen st bi bt = ⟨false, authRequiredMsg, none, 403⟩) ∧
    (∀ c : Customer, st.authenticated = some true → st.customer = some c →
      pyStrip (bi.getD []) ≠ [] → pyStrip (bt.getD []) ≠ [] →
      (((cardsOf ((st.queried_account).getD [])).find? (fun cd =>
          decide (cd.card_issuer = pyStrip (bi.getD []) ∧
            cd.card_type = pyStrip (bt.getD []))) = none →
        block_card_route cardsOf refGen st bi bt =
          ⟨false, noCardMsg (pyStrip (bi.getD [])) (pyStrip (bt.getD [])), none,
            if containsSub alreadyBlockedTok
                (noCardMsg (pyStrip (bi.getD [])) (pyStrip (bt.getD [])))
            then 400 else 404⟩) ∧
      (∀ cd, (cardsOf ((st.queried_account).getD [])).find? (fun cd2 =>
          decide (cd2.card_issuer = pyStrip (bi.getD []) ∧
            cd2.card_type = pyStrip (bt.getD []))) = some cd →
        cd.status = "Blocked".toList →
        block_card_route cardsOf refGen st bi bt = ⟨false, blockedMsg, none, 400⟩) ∧
      (∀ cd, (cardsOf ((st.queried_account).getD [])).find? (fun cd2 =>
          decide (cd2.card_issuer = pyStrip (bi.getD []) ∧
            cd2.card_type = pyStrip (bt.getD []))) = some cd →
        cd.status ≠ "Blocked".toList →
        block_card_route cardsOf refGen st bi bt =
          ⟨true, blockSuccessMsg (pyStrip (bi.getD [])) (pyStrip (bt.getD []))
              ((st.queried_account).getD []), some refGen, 200⟩))) := by
  constructor
  · intro h
    unfold block_card_route
    rw [if_pos h]
  · intro c hauth hcust hbi hbt
    have hgo : ¬ (st.authenticated.getD false = false) := by
      rw [hauth]
      simp
    have hfields : ¬ (pyStrip (bi.getD []) = [] ∨ pyStrip (bt.getD []) = []) :=
      not_or.mpr ⟨hbi, hbt⟩
    refine ⟨?_, ?_, ?_⟩
    · intro hfind
      unfold block_card_route
      rw [if_neg hgo, hcust]
      simp only [if_neg hfields]
      unfold block_card
      rw [hfind]
      rfl
    · intro cd hfind hstat
      unfold block_card_route
      rw [if_neg hgo, hcust]
      simp only [if_neg hfields]
      unfold block_card
      rw [hfind]
      simp only [if_pos hstat]
      rw [show containsSub alreadyBlockedTok blockedMsg = true from by decide]
      rfl
    · intro cd hfind hstat
      unfold block_card_route
      rw [if_neg hgo, hcust]
      simp only [if_neg hfields]
      unfold block_card
      rw [hfind]
      simp only [if_neg hstat]
      rfl

/-- C2 counterexample: with no card on the account and request fields
`card_issuer = "already blocked"`, `card_type = "Visa"`, the not-found
message contains the substring `already blocked`, so the route returns
status 400 where the claim requires 404. -/
theorem block_card_route_notfound_400 :
    block_card_route (fun _ => []) ("BLK-1".toList) wSession
      (some ("already blocked".toList)) (some ("Visa".toList)) =
    ⟨false, noCardMsg ("already blocked".toList) ("Visa".toList), none, 400⟩ := by
  decide

/-- Witness for C2: every branch of the amended claim at concrete sessions. -/
theorem block_card_route_cases_witness :
    block_card_route (fun _ => [wCard]) ("BLK-1".toList) wSessionNone none none =
      ⟨false, authRequiredMsg, none, 403⟩ ∧
    block_card_route (fun _ => [wCard]) ("BLK-1".toList) wSession
        (some ("Visa".toList)) (some ("Credit".toList)) =
      ⟨true, blockSuccessMsg ("Visa".toList) ("Credit".toList) ("100".toList),
        some ("BLK-1".toList), 200⟩ ∧
    block_card_route (fun _ => [wCardB]) ("BLK-1".toList) wSession
        (some ("Visa".toList)) (some ("Credit".toList)) =
      ⟨false, blockedMsg, none, 400⟩ ∧
    block_card_route (fun _ => []) ("BLK-1".toList) wSession
        (some ("Visa".toList)) (some ("Credit".toList)) =
      ⟨false, noCardMsg ("Visa".toList) ("Credit".toList), none, 404⟩ := by
  refine ⟨(block_card_route_cases (fun _ => [wCard]) ("BLK-1".toList) wSessionNone
    none none).1 (by decide), ?_, ?_, ?_⟩
  · have h := ((block_card_route_cases (fun _ => [wCard]) ("BLK-1".toList) wSession
      (some ("Visa".toList)) (some ("Credit".toList))).2 wCustomer rfl rfl
      (by decide) (by decide)).2.2 wCard (by decide) (by decide)
    exact h.trans (by decide)
  · have h := ((block_card_route_cases (fun _ => [wCardB]) ("BLK-1".toList) wSession
      (some ("Visa".toList)) (some ("Credit".toList))).2 wCustomer rfl rfl
      (by decide) (by decide)).2.1 wCardB (by decide) (by decide)
    exact h
  · have h := ((block_card_route_cases (fun _ => []) ("BLK-1".toList) wSession
      (some ("Visa".toList)) (some ("Credit".toList))).2 wCustomer rfl rfl
      (by decide) (by decide)).1 (by decide)
    exact h.trans (by decide)
